import Mathlib

/-!
Shallow embedding of the real-time location pipeline of `ma3tracker`
(`internal/controllers/web_socket_controller.go`), covering:

* the movement classifier `shouldSaveLocation` (lines 551-579),
* the persist-then-publish step `saveAndPublishLocation` (lines 473-548),
* the per-frame driver handler `processDriverLocation` (lines 386-470),
* the broadcast hub registry (`RegisterClient` lines 143-154,
  `UnregisterClient` lines 157-171, the delivery loop `run` lines 102-140),
* the timestamp-normalization step of `LocationData.UnmarshalJSON`
  (lines 48-81).

Modelling conventions: Go `float64` values are embedded as `ℚ` (the
pipeline only adds, subtracts and compares them; small decimal constants
such as `0.5` are exact in both); `time.Time` values are embedded as `ℚ`
seconds since the epoch, so `t2.Sub(t1).Seconds()` becomes `t2 - t1` and
`time.Since(t)` becomes `now - t` for an explicit wall-clock argument
`now`; Go maps are embedded as functions into `Option`; database calls
and JSON decoding are supplied as oracle arguments (`Except`/`Option`
results); `*websocket.Conn` values are identified by `Nat` tokens.
-/

/-- The event-type strings produced by `shouldSaveLocation` and stored in
`models.LocationHistory.EventType`. -/
inductive EventType
  | initial
  | move
  | stopped
  | started
  | periodic
  | insignificant
deriving DecidableEq, Repr

/-- `models.LocationHistory` (internal/models/LocationHistory.go), with the
gorm primary key `ID` (`id = 0` is the zero value of an absent record, the
guard used by `shouldSaveLocation`). -/
structure LocationHistory where
  id : Nat := 0
  driverID : Nat := 0
  latitude : ℚ := 0
  longitude : ℚ := 0
  accuracy : ℚ := 0
  speed : ℚ := 0
  bearing : ℚ := 0
  altitude : ℚ := 0
  isMoving : Bool := false
  distanceFromLast : ℚ := 0
  timestamp : ℚ := 0
  eventType : EventType := EventType.insignificant
deriving DecidableEq, Repr

/-- `minDistanceForSave` constant of `shouldSaveLocation`. -/
def minDistanceForSave : ℚ := 5

/-- `minTimeDiffForSave` constant of `shouldSaveLocation`. -/
def minTimeDiffForSave : ℚ := 10

/-- `minSpeedForMoving` constant of `shouldSaveLocation`. -/
def minSpeedForMoving : ℚ := 0.5

/-- `maxSpeedForStopped` constant of `shouldSaveLocation`. -/
def maxSpeedForStopped : ℚ := 1

/-- `periodicSaveInterval` (60 seconds) of `shouldSaveLocation`. -/
def periodicSaveInterval : ℚ := 60

/-- `shouldSaveLocation` (web_socket_controller.go:551-579).  The Go code's
final rule reads `time.Since(lastLocation.Timestamp) >= periodicSaveInterval`;
`time.Since` is the wall clock at the moment of classification minus its
argument, so it is embedded as `now - lastLocation.timestamp` with the wall
clock passed explicitly as `now`. -/
def shouldSaveLocation (distance speed timeDiff : ℚ) (lastLocation : LocationHistory)
    (now : ℚ) : Bool × EventType :=
  if lastLocation.id = 0 then
    (true, EventType.initial)
  else if distance ≥ minDistanceForSave then
    (true, EventType.move)
  else if lastLocation.isMoving = true ∧ speed < maxSpeedForStopped ∧ timeDiff ≥ minTimeDiffForSave then
    (true, EventType.stopped)
  else if lastLocation.isMoving = false ∧ speed ≥ minSpeedForMoving ∧ timeDiff ≥ minTimeDiffForSave then
    (true, EventType.started)
  else if now - lastLocation.timestamp ≥ periodicSaveInterval then
    (true, EventType.periodic)
  else
    (false, EventType.insignificant)

/-- The negative-speed clamp of `processDriverLocation`
(web_socket_controller.go:444-447): `if currentSpeed < 0 { currentSpeed = 0 }`. -/
def clampSpeed (speed : ℚ) : ℚ :=
  if speed < 0 then 0 else speed

/-- A concrete previous record whose `moving` flag is set: id 1, moving,
timestamp 0. -/
def prevMoving : LocationHistory :=
  { id := 1, isMoving := true, timestamp := 0 }

/-- A concrete previous record whose `moving` flag is clear: id 1, not
moving, timestamp 0. -/
def prevStill : LocationHistory :=
  { id := 1, isMoving := false, timestamp := 0 }

/-- C3: with a previous record present (`id ≠ 0`) and distance at least
5.0 m, the classifier returns `(true, move)` for every speed, elapsed time,
moving flag and classification-time clock: rule 2 fires before rules 3-5. -/
theorem shouldSaveLocation_move_of_distance (distance speed timeDiff : ℚ)
    (lastLocation : LocationHistory) (now : ℚ)
    (hprev : lastLocation.id ≠ 0) (hdist : distance ≥ minDistanceForSave) :
    shouldSaveLocation distance speed timeDiff lastLocation now = (true, EventType.move) := by
  simp [shouldSaveLocation, hprev, hdist]

/-- Witness for C3: a concrete instantiation of
`shouldSaveLocation_move_of_distance` at distance 6 m against a moving
previous record with a large elapsed time. -/
theorem shouldSaveLocation_move_of_distance_witness :
    prevMoving.id ≠ 0 ∧ (6 : ℚ) ≥ minDistanceForSave ∧
      shouldSaveLocation 6 0 100 prevMoving 0 = (true, EventType.move) :=
  ⟨by decide, by norm_num [minDistanceForSave],
    shouldSaveLocation_move_of_distance 6 0 100 prevMoving 0 (by decide)
      (by norm_num [minDistanceForSave])⟩

/-- C4: with a previous record present and distance below 5.0 m, a moving
previous record plus clamped speed below 1.0 m/s plus elapsed time at least
10 s yields `(true, stopped)`, and a non-moving previous record plus clamped
speed at least 0.5 m/s plus elapsed time at least 10 s yields
`(true, started)`. -/
theorem shouldSaveLocation_stopped_started (distance rawSpeed timeDiff : ℚ)
    (lastLocation : LocationHistory) (now : ℚ)
    (hprev : lastLocation.id ≠ 0) (hdist : distance < minDistanceForSave) :
    (lastLocation.isMoving = true → clampSpeed rawSpeed < maxSpeedForStopped →
      timeDiff ≥ minTimeDiffForSave →
      shouldSaveLocation distance (clampSpeed rawSpeed) timeDiff lastLocation now
        = (true, EventType.stopped)) ∧
    (lastLocation.isMoving = false → clampSpeed rawSpeed ≥ minSpeedForMoving →
      timeDiff ≥ minTimeDiffForSave →
      shouldSaveLocation distance (clampSpeed rawSpeed) timeDiff lastLocation now
        = (true, EventType.started)) := by
  constructor
  · intro hm hs ht
    simp [shouldSaveLocation, hprev, not_le.mpr hdist, hm, hs, ht]
  · intro hm hs ht
    simp [shouldSaveLocation, hprev, not_le.mpr hdist, hm, hs, ht]

/-- Witness for C4: both branches of `shouldSaveLocation_stopped_started`
at concrete inputs (distance 1 m, elapsed 10 s; clamped speed 0 for the
stopped case against `prevMoving`, clamped speed 2 for the started case
against `prevStill`). -/
theorem shouldSaveLocation_stopped_started_witness :
    shouldSaveLocation 1 (clampSpeed 0) 10 prevMoving 0 = (true, EventType.stopped) ∧
    shouldSaveLocation 1 (clampSpeed 2) 10 prevStill 0 = (true, EventType.started) :=
  ⟨(shouldSaveLocation_stopped_started 1 0 10 prevMoving 0 (by decide)
      (by norm_num [minDistanceForSave])).1 (by decide)
      (by norm_num [clampSpeed, maxSpeedForStopped]) (by norm_num [minTimeDiffForSave]),
    (shouldSaveLocation_stopped_started 1 2 10 prevStill 0 (by decide)
      (by norm_num [minDistanceForSave])).2 (by decide)
      (by norm_num [clampSpeed, minSpeedForMoving]) (by norm_num [minTimeDiffForSave])⟩

/-- Counterexample to C2: the pair (`prevMoving`, current sample at
timestamp 100) has elapsed time 100 s ≥ 60 s between the record timestamps
and none of rules 1-4 applies (id 1, distance 0, speed 2), yet at
classification wall-clock 30 the classifier returns `(false, insignificant)`
(not `periodic`), while at wall-clock 70 the same pair returns
`(true, periodic)`: the result depends on the wall clock read by
`time.Since`, not on the current sample's timestamp. -/
theorem shouldSaveLocation_periodic_counterexample :
    shouldSaveLocation 0 2 100 prevMoving 30 = (false, EventType.insignificant) ∧
    shouldSaveLocation 0 2 100 prevMoving 70 = (true, EventType.periodic) ∧
    (100 : ℚ) ≥ periodicSaveInterval := by
  refine ⟨?_, ?_, by norm_num [periodicSaveInterval]⟩ <;>
    norm_num [shouldSaveLocation, prevMoving, minDistanceForSave, maxSpeedForStopped,
      minSpeedForMoving, minTimeDiffForSave, periodicSaveInterval]

/-- C2 as amended: when a previous record exists and none of rules 2-4
applies, the classifier returns `(true, periodic)` exactly when the
wall-clock time `now` at which classification runs is at least 60 s past the
previous record's timestamp (`time.Since`); the current sample's timestamp
plays no role in this rule. -/
theorem shouldSaveLocation_periodic_iff_wallclock (distance speed timeDiff : ℚ)
    (lastLocation : LocationHistory) (now : ℚ)
    (hprev : lastLocation.id ≠ 0) (hdist : distance < minDistanceForSave)
    (hstop : ¬(lastLocation.isMoving = true ∧ speed < maxSpeedForStopped ∧
      timeDiff ≥ minTimeDiffForSave))
    (hstart : ¬(lastLocation.isMoving = false ∧ speed ≥ minSpeedForMoving ∧
      timeDiff ≥ minTimeDiffForSave)) :
    shouldSaveLocation distance speed timeDiff lastLocation now = (true, EventType.periodic)
      ↔ now - lastLocation.timestamp ≥ periodicSaveInterval := by
  by_cases hper : now - lastLocation.timestamp ≥ periodicSaveInterval <;>
    simp [shouldSaveLocation, hprev, not_le.mpr hdist, hstop, hstart, hper]

/-- Witness for the amended C2: with `prevMoving`, distance 0, speed 2 and
elapsed 100 s, classification at wall-clock 70 is `periodic` because
70 - 0 ≥ 60. -/
theorem shouldSaveLocation_periodic_iff_wallclock_witness :
    shouldSaveLocation 0 2 100 prevMoving 70 = (true, EventType.periodic) :=
  (shouldSaveLocation_periodic_iff_wallclock 0 2 100 prevMoving 70 (by decide)
      (by norm_num [minDistanceForSave])
      (by norm_num [prevMoving, maxSpeedForStopped])
      (by norm_num [prevMoving])).mpr
    (by norm_num [prevMoving, periodicSaveInterval])

/-- The `LocationData` struct parsed from an inbound frame
(web_socket_controller.go:36-45), after its custom `UnmarshalJSON` has
produced a `time.Time` timestamp (embedded as `ℚ` seconds). -/
structure LocationData where
  driverID : Nat := 0
  latitude : ℚ := 0
  longitude : ℚ := 0
  accuracy : ℚ := 0
  speed : ℚ := 0
  bearing : ℚ := 0
  altitude : ℚ := 0
  timestamp : ℚ := 0
deriving DecidableEq, Repr

/-- A message written back to the reporter (driver) connection.
`errorAck` models `WriteJSON(gin.H{"error": ...})`; `savedAck` models the
`WriteJSON(response)` map of web_socket_controller.go:492-500 with fields
status "saved", event_type, distance, is_moving, timestamp, sequence_id;
`text` models a raw `WriteMessage(websocket.TextMessage, ...)` frame. -/
inductive OutMsg
  | errorAck (message : String)
  | savedAck (eventType : EventType) (distance : ℚ) (isMoving : Bool)
      (timestamp : ℚ) (sequenceId : Nat)
  | text (s : String)
deriving DecidableEq, Repr

/-- The `status` field of an outbound reporter message, when the message is
a JSON object carrying one: only the saved acknowledgment has a `status`
key (value "saved"); the error acknowledgment carries only an `error` key
and the plain text frame is not a JSON object. -/
def ackStatus : OutMsg → Option String
  | OutMsg.savedAck _ _ _ _ _ => some "saved"
  | OutMsg.errorAck _ => none
  | OutMsg.text _ => none

/-- The `broadcastData` map handed to `locationHub.PublishLocation`
(web_socket_controller.go:525-540). -/
structure BroadcastMsg where
  driverID : Nat
  vehicleID : Nat
  latitude : ℚ
  longitude : ℚ
  accuracy : ℚ
  speed : ℚ
  bearing : ℚ
  altitude : ℚ
  timestamp : ℚ
  eventType : EventType
  isMoving : Bool
  saccoID : Nat
  sequenceId : Nat
deriving DecidableEq, Repr

/-- The observable effects of handling one driver frame: messages written
to the reporter connection, records appended to the location_histories
table, and messages handed to the hub's publish operation, each in order. -/
structure SessionEffects where
  toReporter : List OutMsg
  persisted : List LocationHistory
  published : List BroadcastMsg
deriving DecidableEq, Repr

/-- The `locationRecord` literal built by `saveAndPublishLocation`
(web_socket_controller.go:474-486), before the database assigns its id. -/
def mkLocationRecord (locData : LocationData) (distance bearing : ℚ)
    (isMoving : Bool) (eventType : EventType) : LocationHistory :=
  { id := 0
    driverID := locData.driverID
    latitude := locData.latitude
    longitude := locData.longitude
    accuracy := locData.accuracy
    speed := locData.speed
    bearing := bearing
    altitude := locData.altitude
    isMoving := isMoving
    distanceFromLast := distance
    timestamp := locData.timestamp
    eventType := eventType }

/-- `saveAndPublishLocation` (web_socket_controller.go:473-548).  The
`config.DB.Create` call is supplied as `createResult` (`ok newId` means the
insert succeeded and gorm assigned primary key `newId`; `error` means the
insert failed).  The vehicle lookup is supplied as `vehicleQuery`
(`none` covers both `ErrRecordNotFound` and any other lookup error, in
which case the code broadcasts vehicle id 0). -/
def saveAndPublishLocation (locData : LocationData) (distance bearing : ℚ)
    (isMoving : Bool) (eventType : EventType) (saccoID : Nat)
    (createResult : Except String Nat) (vehicleQuery : Option Nat) : SessionEffects :=
  match createResult with
  | Except.error _ =>
      { toReporter := [OutMsg.errorAck "Failed to save location."]
        persisted := []
        published := [] }
  | Except.ok newId =>
      let locationRecord := { mkLocationRecord locData distance bearing isMoving eventType with id := newId }
      let vehicleID := vehicleQuery.getD 0
      { toReporter := [OutMsg.savedAck eventType distance isMoving locData.timestamp newId]
        persisted := [locationRecord]
        published := [{ driverID := locData.driverID
                        vehicleID := vehicleID
                        latitude := locData.latitude
                        longitude := locData.longitude
                        accuracy := locData.accuracy
                        speed := locData.speed
                        bearing := bearing
                        altitude := locData.altitude
                        timestamp := locData.timestamp
                        eventType := eventType
                        isMoving := isMoving
                        saccoID := saccoID
                        sequenceId := newId }] }

/-- `processDriverLocation` (web_socket_controller.go:386-470).  The
`json.Unmarshal` of the frame bytes is supplied as `parsed`; the
last-location query (`First` ordered by `created_at desc`) is supplied as
`lastQuery` with `ok none` standing for `gorm.ErrRecordNotFound`, `ok (some r)`
for a found record and `error` for any other database error.  The geospatial
functions `calculateDistance`/`calculateBearing`
(web_socket_controller.go:582-621) are real-valued trigonometry no claim
depends on numerically, so the handler is parametrized over them as
`calcDistance`/`calcBearing`. -/
def processDriverLocation (parsed : Except String LocationData)
    (authenticatedDriverID saccoID : Nat)
    (lastQuery : Except String (Option LocationHistory))
    (createResult : Except String Nat) (vehicleQuery : Option Nat)
    (now : ℚ) (calcDistance calcBearing : ℚ → ℚ → ℚ → ℚ → ℚ) : SessionEffects :=
  match parsed with
  | Except.error _ =>
      { toReporter := [OutMsg.errorAck "Invalid location data format. Check timestamp format."]
        persisted := []
        published := [] }
  | Except.ok locData =>
    if locData.driverID ≠ authenticatedDriverID then
      { toReporter := [OutMsg.errorAck "Unauthorized location update."]
        persisted := []
        published := [] }
    else
      match lastQuery with
      | Except.ok none =>
          saveAndPublishLocation locData 0 0 true EventType.initial saccoID createResult vehicleQuery
      | Except.error _ =>
          { toReporter := [OutMsg.errorAck "Database error fetching last location."]
            persisted := []
            published := [] }
      | Except.ok (some lastLocation) =>
          let distance := calcDistance lastLocation.latitude lastLocation.longitude locData.latitude locData.longitude
          let timeDiff := locData.timestamp - lastLocation.timestamp
          let currentSpeed := clampSpeed locData.speed
          let bearing := calcBearing lastLocation.latitude lastLocation.longitude locData.latitude locData.longitude
          match shouldSaveLocation distance currentSpeed timeDiff lastLocation now with
          | (true, eventType) =>
              saveAndPublishLocation locData distance bearing (decide (currentSpeed > 0.5))
                eventType saccoID createResult vehicleQuery
          | (false, _) =>
              { toReporter := [OutMsg.text "Location received - no significant change"]
                persisted := []
                published := [] }

/-- C1: a broadcast message is handed to the hub's publish operation if and
only if the `DB.Create` append succeeded: on a failed append the reporter
gets the structured error acknowledgment and nothing is persisted or
published, and on a successful append exactly one message is published and
its `sequence_id` is the persisted record's assigned id. -/
theorem saveAndPublishLocation_publish_iff_persist (locData : LocationData)
    (distance bearing : ℚ) (isMoving : Bool) (eventType : EventType) (saccoID : Nat)
    (createResult : Except String Nat) (vehicleQuery : Option Nat) :
    ((saveAndPublishLocation locData distance bearing isMoving eventType saccoID createResult vehicleQuery).published ≠ []
      ↔ ∃ newId, createResult = Except.ok newId) ∧
    (∀ e, createResult = Except.error e →
      (saveAndPublishLocation locData distance bearing isMoving eventType saccoID createResult vehicleQuery).toReporter
          = [OutMsg.errorAck "Failed to save location."] ∧
      (saveAndPublishLocation locData distance bearing isMoving eventType saccoID createResult vehicleQuery).persisted = [] ∧
      (saveAndPublishLocation locData distance bearing isMoving eventType saccoID createResult vehicleQuery).published = []) ∧
    (∀ newId, createResult = Except.ok newId →
      (saveAndPublishLocation locData distance bearing isMoving eventType saccoID createResult vehicleQuery).published.map BroadcastMsg.sequenceId
          = [newId] ∧
      (saveAndPublishLocation locData distance bearing isMoving eventType saccoID createResult vehicleQuery).persisted.map LocationHistory.id
          = [newId]) := by
  cases createResult <;> simp [saveAndPublishLocation]

/-- A concrete parsed sample from driver 7. -/
def sampleFrame : LocationData :=
  { driverID := 7, latitude := 1, longitude := 2, accuracy := 3, speed := 2,
    bearing := 0, altitude := 0, timestamp := 5 }

/-- Witness for C1: a successful append with assigned id 42 publishes
exactly one message with sequence id 42 and persists the record under
id 42. -/
theorem saveAndPublishLocation_publish_iff_persist_witness :
    (saveAndPublishLocation sampleFrame 0 0 true EventType.initial 3 (Except.ok 42) none).published.map BroadcastMsg.sequenceId
        = [42] ∧
    (saveAndPublishLocation sampleFrame 0 0 true EventType.initial 3 (Except.ok 42) none).persisted.map LocationHistory.id
        = [42] :=
  (saveAndPublishLocation_publish_iff_persist sampleFrame 0 0 true EventType.initial 3
      (Except.ok 42) none).2.2 42 rfl

/-- The geospatial-math instantiation used by concrete runs: both distance
and bearing identically 0 (coincident points). -/
def zeroGeo : ℚ → ℚ → ℚ → ℚ → ℚ := fun _ _ _ _ => 0

/-- Counterexample to C6: a well-formed frame from driver 7 (matching the
authenticated identity) that is not significant — previous record
`prevMoving` at distance 0, speed 2, elapsed 5 s, wall-clock 5 — is answered
with the raw text frame "Location received - no significant change", which
carries no `status` field at all: no acknowledgment with status "ignored"
is ever sent. -/
theorem insignificant_ack_counterexample :
    (processDriverLocation (Except.ok sampleFrame) 7 3 (Except.ok (some prevMoving))
        (Except.ok 1) none 5 zeroGeo zeroGeo).toReporter
      = [OutMsg.text "Location received - no significant change"] ∧
    ∀ m ∈ (processDriverLocation (Except.ok sampleFrame) 7 3 (Except.ok (some prevMoving))
        (Except.ok 1) none 5 zeroGeo zeroGeo).toReporter,
      ackStatus m ≠ some "ignored" := by
  have h1 : (processDriverLocation (Except.ok sampleFrame) 7 3 (Except.ok (some prevMoving))
      (Except.ok 1) none 5 zeroGeo zeroGeo).toReporter
      = [OutMsg.text "Location received - no significant change"] := by
    norm_num [processDriverLocation, sampleFrame, prevMoving, zeroGeo, clampSpeed,
      shouldSaveLocation, minDistanceForSave, maxSpeedForStopped, minSpeedForMoving,
      minTimeDiffForSave, periodicSaveInterval]
  refine ⟨h1, ?_⟩
  rw [h1]
  simp [ackStatus]

/-- C6 as amended: for a well-formed frame whose claimed driver id matches
the authenticated identity and for which a previous record exists, if the
classifier judges the sample significant and the append succeeds with id
`newId`, the reporter receives exactly the status-"saved" acknowledgment
carrying the event category, the computed distance, the moving flag, the
sample timestamp and sequence id `newId`; if the classifier judges the
sample not significant, the reporter receives the plain text frame
"Location received - no significant change" (a lightweight no-change reply
with no status field), not a structured acknowledgment. -/
theorem processDriverLocation_acknowledgments (locData : LocationData)
    (authenticatedDriverID saccoID : Nat) (lastLocation : LocationHistory)
    (createResult : Except String Nat) (vehicleQuery : Option Nat) (now : ℚ)
    (calcDistance calcBearing : ℚ → ℚ → ℚ → ℚ → ℚ)
    (hid : locData.driverID = authenticatedDriverID) :
    (∀ ev newId,
      shouldSaveLocation
          (calcDistance lastLocation.latitude lastLocation.longitude locData.latitude locData.longitude)
          (clampSpeed locData.speed) (locData.timestamp - lastLocation.timestamp)
          lastLocation now = (true, ev) →
      createResult = Except.ok newId →
      (processDriverLocation (Except.ok locData) authenticatedDriverID saccoID
          (Except.ok (some lastLocation)) createResult vehicleQuery now calcDistance calcBearing).toReporter
        = [OutMsg.savedAck ev
            (calcDistance lastLocation.latitude lastLocation.longitude locData.latitude locData.longitude)
            (decide (clampSpeed locData.speed > 0.5)) locData.timestamp newId]) ∧
    (∀ ev,
      shouldSaveLocation
          (calcDistance lastLocation.latitude lastLocation.longitude locData.latitude locData.longitude)
          (clampSpeed locData.speed) (locData.timestamp - lastLocation.timestamp)
          lastLocation now = (false, ev) →
      (processDriverLocation (Except.ok locData) authenticatedDriverID saccoID
          (Except.ok (some lastLocation)) createResult vehicleQuery now calcDistance calcBearing).toReporter
        = [OutMsg.text "Location received - no significant change"] ∧
      ∀ m ∈ (processDriverLocation (Except.ok locData) authenticatedDriverID saccoID
          (Except.ok (some lastLocation)) createResult vehicleQuery now calcDistance calcBearing).toReporter,
        ackStatus m ≠ some "ignored") := by
  constructor
  · intro ev newId hsig hcreate
    simp [processDriverLocation, hid, hsig, hcreate, saveAndPublishLocation]
  · intro ev hsig
    refine ⟨?_, ?_⟩ <;> simp [processDriverLocation, hid, hsig, ackStatus]

/-- Witness for the amended C6: the significant branch at a concrete moved
frame (distance 6 via a constant-6 distance function, append id 9) yields
the saved acknowledgment, and the insignificant branch at `sampleFrame`
yields the text frame. -/
theorem processDriverLocation_acknowledgments_witness :
    (processDriverLocation (Except.ok sampleFrame) 7 3 (Except.ok (some prevMoving))
        (Except.ok 9) none 5 (fun _ _ _ _ => 6) zeroGeo).toReporter
      = [OutMsg.savedAck EventType.move 6 (decide (clampSpeed sampleFrame.speed > 0.5))
          sampleFrame.timestamp 9] ∧
    (processDriverLocation (Except.ok sampleFrame) 7 3 (Except.ok (some prevMoving))
        (Except.ok 1) none 5 zeroGeo zeroGeo).toReporter
      = [OutMsg.text "Location received - no significant change"] :=
  ⟨(processDriverLocation_acknowledgments sampleFrame 7 3 prevMoving
      (Except.ok 9) none 5 (fun _ _ _ _ => 6) zeroGeo rfl).1 EventType.move 9
      (by norm_num [shouldSaveLocation, prevMoving, sampleFrame, clampSpeed,
        minDistanceForSave, maxSpeedForStopped, minSpeedForMoving, minTimeDiffForSave]) rfl,
    ((processDriverLocation_acknowledgments sampleFrame 7 3 prevMoving
      (Except.ok 1) none 5 zeroGeo zeroGeo rfl).2 EventType.insignificant
      (by norm_num [shouldSaveLocation, prevMoving, sampleFrame, clampSpeed, zeroGeo,
        minDistanceForSave, maxSpeedForStopped, minSpeedForMoving, minTimeDiffForSave,
        periodicSaveInterval])).1⟩

/-- C10: (a) for a sample with no previous persisted record (last-location
query returns not-found) and a successful append, the persisted initial
record has moving flag `true`, bearing 0 and distance-from-previous 0,
whatever the sample's reported speed; (b) for a subsequent significant
sample the persisted moving flag is exactly `clamped speed > 0.5`; (c) so
at clamped speed exactly 0.5 the persisted moving flag is `false` even when
the event is `started`. -/
theorem processDriverLocation_moving_flag (locData : LocationData)
    (authenticatedDriverID saccoID : Nat) (lastLocation : LocationHistory)
    (createResult : Except String Nat) (vehicleQuery : Option Nat) (now : ℚ)
    (calcDistance calcBearing : ℚ → ℚ → ℚ → ℚ → ℚ)
    (hid : locData.driverID = authenticatedDriverID) :
    (∀ newId, createResult = Except.ok newId →
      (processDriverLocation (Except.ok locData) authenticatedDriverID saccoID
          (Except.ok none) createResult vehicleQuery now calcDistance calcBearing).persisted.map
          (fun r => (r.isMoving, r.bearing, r.distanceFromLast))
        = [(true, 0, 0)]) ∧
    (∀ ev newId,
      shouldSaveLocation
          (calcDistance lastLocation.latitude lastLocation.longitude locData.latitude locData.longitude)
          (clampSpeed locData.speed) (locData.timestamp - lastLocation.timestamp)
          lastLocation now = (true, ev) →
      createResult = Except.ok newId →
      (processDriverLocation (Except.ok locData) authenticatedDriverID saccoID
          (Except.ok (some lastLocation)) createResult vehicleQuery now calcDistance calcBearing).persisted.map
          LocationHistory.isMoving
        = [decide (clampSpeed locData.speed > 0.5)]) ∧
    (clampSpeed locData.speed = 0.5 →
      ∀ ev newId,
      shouldSaveLocation
          (calcDistance lastLocation.latitude lastLocation.longitude locData.latitude locData.longitude)
          (clampSpeed locData.speed) (locData.timestamp - lastLocation.timestamp)
          lastLocation now = (true, ev) →
      createResult = Except.ok newId →
      (processDriverLocation (Except.ok locData) authenticatedDriverID saccoID
          (Except.ok (some lastLocation)) createResult vehicleQuery now calcDistance calcBearing).persisted.map
          LocationHistory.isMoving
        = [false]) := by
  refine ⟨?_, ?_, ?_⟩
  · intro newId hcreate
    simp [processDriverLocation, hid, hcreate, saveAndPublishLocation, mkLocationRecord]
  · intro ev newId hsig hcreate
    simp [processDriverLocation, hid, hsig, hcreate, saveAndPublishLocation, mkLocationRecord]
  · intro hhalf ev newId hsig hcreate
    rw [hhalf] at hsig
    simp [processDriverLocation, hid, hhalf, hsig, hcreate, saveAndPublishLocation, mkLocationRecord]

/-- A concrete parsed sample from driver 7 whose reported speed is exactly
0.5 m/s, 10 s after `prevStill`'s timestamp. -/
def halfSpeedFrame : LocationData :=
  { driverID := 7, latitude := 0, longitude := 0, accuracy := 0, speed := 0.5,
    bearing := 0, altitude := 0, timestamp := 10 }

/-- Witness for C10: a first sample with reported speed 0 is persisted with
moving flag true, bearing 0 and distance 0; and `halfSpeedFrame` (clamped
speed exactly 0.5, classified `started` against `prevStill`) is persisted
with moving flag false. -/
theorem processDriverLocation_moving_flag_witness :
    (processDriverLocation (Except.ok { driverID := 7, speed := 0 }) 7 3
        (Except.ok none) (Except.ok 1) none 0 zeroGeo zeroGeo).persisted.map
        (fun r => (r.isMoving, r.bearing, r.distanceFromLast))
      = [(true, 0, 0)] ∧
    shouldSaveLocation 0 (clampSpeed halfSpeedFrame.speed) 10 prevStill 0
      = (true, EventType.started) ∧
    (processDriverLocation (Except.ok halfSpeedFrame) 7 3
        (Except.ok (some prevStill)) (Except.ok 2) none 0 zeroGeo zeroGeo).persisted.map
        LocationHistory.isMoving
      = [false] :=
  ⟨(processDriverLocation_moving_flag { driverID := 7, speed := 0 } 7 3 prevStill
      (Except.ok 1) none 0 zeroGeo zeroGeo rfl).1 1 rfl,
    by norm_num [shouldSaveLocation, clampSpeed, halfSpeedFrame, prevStill,
      minDistanceForSave, maxSpeedForStopped, minSpeedForMoving, minTimeDiffForSave,
      periodicSaveInterval],
    (processDriverLocation_moving_flag halfSpeedFrame 7 3 prevStill
      (Except.ok 2) none 0 zeroGeo zeroGeo rfl).2.2
      (by norm_num [clampSpeed, halfSpeedFrame]) EventType.started 2
      (by norm_num [shouldSaveLocation, clampSpeed, halfSpeedFrame, prevStill, zeroGeo,
        minDistanceForSave, maxSpeedForStopped, minSpeedForMoving, minTimeDiffForSave,
        periodicSaveInterval]) rfl⟩

/-- A watcher connection (`*websocket.Conn`), identified by a token. -/
abbrev Conn := Nat

/-- The hub's `saccoClients` registry (web_socket_controller.go:85): a Go
map from sacco id to the set of registered connections, embedded as a
function into `Option` (absent key = `none`; the inner
`map[*websocket.Conn]bool` set is embedded as a duplicate-free list built
by the operations below). -/
def Registry : Type := Nat → Option (List Conn)

/-- The registry of a freshly constructed hub (`NewLocationHub`,
web_socket_controller.go:92-99): no tenant entries. -/
def emptyRegistry : Registry := fun _ => none

/-- `RegisterClient` (web_socket_controller.go:143-154): create the
tenant's set on first member, then add the connection (map insertion is
idempotent, so a connection already present is not duplicated). -/
def registerClient (saccoID : Nat) (conn : Conn) (r : Registry) : Registry :=
  fun t =>
    if t = saccoID then
      match r saccoID with
      | none => some [conn]
      | some clients => some (if conn ∈ clients then clients else conn :: clients)
    else r t

/-- `UnregisterClient` (web_socket_controller.go:157-171): if the tenant
has an entry, delete the connection from its set and drop the whole entry
once the set is empty; otherwise do nothing. -/
def unregisterClient (saccoID : Nat) (conn : Conn) (r : Registry) : Registry :=
  fun t =>
    if t = saccoID then
      match r saccoID with
      | none => none
      | some clients =>
          let remaining := clients.filter (fun x => x ≠ conn)
          if remaining = [] then none else some remaining
    else r t

/-- The outcome of one `WriteJSON` delivery attempt inside `run`'s
per-connection goroutine (web_socket_controller.go:119-135): success, an
error recognized by `websocket.IsCloseError` for going-away / normal /
abnormal closure, or any other write error. -/
inductive DeliveryOutcome
  | ok
  | closeError
  | otherError
deriving DecidableEq, Repr

/-- The hub's reaction to one delivery attempt (the error branch of the
goroutine in `run`, web_socket_controller.go:121-134): a close-type error
unregisters the connection; success and every other error leave the
registry untouched (the other-error branch only logs a warning). -/
def deliverReaction (saccoID : Nat) (conn : Conn) (outcome : DeliveryOutcome)
    (r : Registry) : Registry :=
  match outcome with
  | DeliveryOutcome.closeError => unregisterClient saccoID conn r
  | DeliveryOutcome.ok => r
  | DeliveryOutcome.otherError => r

/-- One iteration of the hub's `run` loop for a message tagged with
`msgSaccoID` (web_socket_controller.go:102-140): look up the tenant's
current connection set, attempt one delivery to each member (second
component: the list of attempted connections, in order, each exactly once
— there is no retry), and apply each delivery's reaction to the
registry. -/
def runStep (r : Registry) (msgSaccoID : Nat) (outcome : Conn → DeliveryOutcome) :
    Registry × List Conn :=
  match r msgSaccoID with
  | none => (r, [])
  | some clients =>
      (clients.foldl (fun acc c => deliverReaction msgSaccoID c (outcome c) acc) r, clients)

/-- A registry with tenant 1 holding exactly connection 1. -/
def oneConnRegistry : Registry := registerClient 1 1 emptyRegistry

/-- Registering never leaves the target tenant with an empty set, and does
not touch other tenants' sets. -/
theorem registerClient_no_empty (saccoID : Nat) (conn : Conn) (r : Registry)
    (inv : ∀ t cs, r t = some cs → cs ≠ []) :
    ∀ t cs, registerClient saccoID conn r t = some cs → cs ≠ [] := by
  intro t cs h
  by_cases ht : t = saccoID
  · rw [ht] at h
    cases hr : r saccoID with
    | none =>
        have hreg : registerClient saccoID conn r saccoID = some [conn] := by
          simp [registerClient, hr]
        rw [hreg] at h
        simp only [Option.some.injEq] at h
        rw [← h]
        simp
    | some clients =>
        have hreg : registerClient saccoID conn r saccoID
            = some (if conn ∈ clients then clients else conn :: clients) := by
          simp [registerClient, hr]
        rw [hreg] at h
        simp only [Option.some.injEq] at h
        rw [← h]
        by_cases hc : conn ∈ clients
        · simpa [hc] using inv saccoID clients hr
        · simp [hc]
  · have hreg : registerClient saccoID conn r t = r t := by simp [registerClient, ht]
    rw [hreg] at h
    exact inv t cs h

/-- Unregistering never leaves the target tenant with an empty set (an
emptied set is dropped with its entry), and does not touch other
tenants' sets. -/
theorem unregisterClient_no_empty (saccoID : Nat) (conn : Conn) (r : Registry)
    (inv : ∀ t cs, r t = some cs → cs ≠ []) :
    ∀ t cs, unregisterClient saccoID conn r t = some cs → cs ≠ [] := by
  intro t cs h
  by_cases ht : t = saccoID
  · rw [ht] at h
    cases hr : r saccoID with
    | none =>
        have hreg : unregisterClient saccoID conn r saccoID = none := by
          simp [unregisterClient, hr]
        rw [hreg] at h
        exact absurd h (by simp)
    | some clients =>
        by_cases hall : ∀ x ∈ clients, x = conn
        · have hreg : unregisterClient saccoID conn r saccoID = none := by
            simp [unregisterClient, hr]
            exact hall
          rw [hreg] at h
          exact absurd h (by simp)
        · have hreg : unregisterClient saccoID conn r saccoID
              = some (clients.filter (fun x => x ≠ conn)) := by
            simp [unregisterClient, hr, hall]
          rw [hreg] at h
          simp only [Option.some.injEq] at h
          rw [← h]
          push_neg at hall
          obtain ⟨x, hx, hne⟩ := hall
          exact List.ne_nil_of_mem (List.mem_filter.mpr ⟨hx, by simp [hne]⟩)
  · have hreg : unregisterClient saccoID conn r t = r t := by simp [unregisterClient, ht]
    rw [hreg] at h
    exact inv t cs h

/-- After `unregisterClient saccoID conn`, the connection `conn` is no
longer a member of the tenant's set (when the tenant still has one). -/
theorem unregisterClient_not_mem (saccoID : Nat) (conn : Conn) (r : Registry) :
    ∀ cs, unregisterClient saccoID conn r saccoID = some cs → conn ∉ cs := by
  intro cs h
  cases hr : r saccoID with
  | none =>
      have hreg : unregisterClient saccoID conn r saccoID = none := by
        simp [unregisterClient, hr]
      rw [hreg] at h
      exact absurd h (by simp)
  | some clients =>
      by_cases hall : ∀ x ∈ clients, x = conn
      · have hreg : unregisterClient saccoID conn r saccoID = none := by
          simp [unregisterClient, hr]
          exact hall
        rw [hreg] at h
        exact absurd h (by simp)
      · have hreg : unregisterClient saccoID conn r saccoID
            = some (clients.filter (fun x => x ≠ conn)) := by
          simp [unregisterClient, hr, hall]
        rw [hreg] at h
        simp only [Option.some.injEq] at h
        rw [← h]
        intro hmem
        have hx := (List.mem_filter.mp hmem).2
        simp at hx

/-- The hub registry states reachable from a fresh hub by any finite
sequence of `RegisterClient`, `UnregisterClient` and delivery-reaction
(`run` error-branch) operations. -/
inductive HubReachable : Registry → Prop
  | empty : HubReachable emptyRegistry
  | register (saccoID : Nat) (conn : Conn) {r : Registry} :
      HubReachable r → HubReachable (registerClient saccoID conn r)
  | unregister (saccoID : Nat) (conn : Conn) {r : Registry} :
      HubReachable r → HubReachable (unregisterClient saccoID conn r)
  | deliveryFail (saccoID : Nat) (conn : Conn) (outcome : DeliveryOutcome) {r : Registry} :
      HubReachable r → HubReachable (deliverReaction saccoID conn outcome r)

/-- C7: in every hub registry state reachable from the empty registry by
register, unregister and delivery-failure removals, no tenant is mapped to
an empty connection set, and a tenant has an entry exactly when at least
one connection is registered under it. -/
theorem hubRegistry_no_empty_entry (r : Registry) (h : HubReachable r) :
    (∀ t cs, r t = some cs → cs ≠ []) ∧
    (∀ t, (∃ cs, r t = some cs) ↔ ∃ conn cs, r t = some cs ∧ conn ∈ cs) := by
  have inv : ∀ t cs, r t = some cs → cs ≠ [] := by
    induction h with
    | empty => intro t cs h; simp [emptyRegistry] at h
    | register saccoID conn hr ih => exact registerClient_no_empty saccoID conn _ ih
    | unregister saccoID conn hr ih => exact unregisterClient_no_empty saccoID conn _ ih
    | deliveryFail saccoID conn outcome hr ih =>
        cases outcome with
        | ok => exact ih
        | otherError => exact ih
        | closeError => exact unregisterClient_no_empty saccoID conn _ ih
  refine ⟨inv, fun t => ⟨?_, ?_⟩⟩
  · rintro ⟨cs, hcs⟩
    obtain ⟨c, hc⟩ := List.exists_mem_of_ne_nil cs (inv t cs hcs)
    exact ⟨c, cs, hcs, hc⟩
  · rintro ⟨conn, cs, hcs, _⟩
    exact ⟨cs, hcs⟩

/-- Witness for C7: the invariant instantiated at the reachable state
`oneConnRegistry` (a fresh hub after one register) and tenant 1. -/
theorem hubRegistry_no_empty_entry_witness :
    (∃ cs, oneConnRegistry 1 = some cs) ↔ ∃ conn cs, oneConnRegistry 1 = some cs ∧ conn ∈ cs :=
  (hubRegistry_no_empty_entry oneConnRegistry
    (HubReachable.register 1 1 HubReachable.empty)).2 1

/-- Counterexample to C8: starting from a registry in which tenant 1
already holds connection 2, registering connection 1 and then
unregistering it leaves tenant 1 with an entry (still holding connection
2), so register-then-unregister does not leave the tenant entryless from
every starting state. -/
theorem register_unregister_counterexample :
    unregisterClient 1 1 (registerClient 1 1 (registerClient 1 2 emptyRegistry)) 1
      = some [2] := by decide

/-- C8 as amended: from any registry state in which the tenant's set
contains no connection other than `conn` (in particular whenever the tenant
has no entry at all), `register(saccoID, conn)` followed by
`unregister(saccoID, conn)` leaves the tenant with no entry. -/
theorem register_unregister_removes_entry (r : Registry) (saccoID : Nat) (conn : Conn)
    (honly : ∀ x ∈ (r saccoID).getD [], x = conn) :
    unregisterClient saccoID conn (registerClient saccoID conn r) saccoID = none := by
  cases hr : r saccoID with
  | none =>
      have hreg : registerClient saccoID conn r saccoID = some [conn] := by
        simp [registerClient, hr]
      simp [unregisterClient, hreg]
  | some clients =>
      rw [hr] at honly
      simp only [Option.getD_some] at honly
      by_cases hc : conn ∈ clients
      · have hreg : registerClient saccoID conn r saccoID = some clients := by
          simp [registerClient, hr, hc]
        simp [unregisterClient, hreg]
        exact honly
      · have hreg : registerClient saccoID conn r saccoID = some (conn :: clients) := by
          simp [registerClient, hr, hc]
        have hall2 : ∀ x ∈ conn :: clients, x = conn := by
          intro x hx
          rcases List.mem_cons.mp hx with hx | hx
          · exact hx
          · exact honly x hx
        simp [unregisterClient, hreg]
        exact honly

/-- Witness for the amended C8: from `oneConnRegistry` (tenant 1 holds only
connection 1), register-then-unregister of connection 1 leaves tenant 1
with no entry. -/
theorem register_unregister_removes_entry_witness :
    unregisterClient 1 1 (registerClient 1 1 oneConnRegistry) 1 = none :=
  register_unregister_removes_entry oneConnRegistry 1 1 (by decide)

/-- Counterexample to C9: tenant 1 has the single registered connection 1;
delivering a message whose write to connection 1 fails with an error that
`websocket.IsCloseError` does not recognize (`otherError`) attempts the
delivery once and leaves connection 1 registered: not every delivery
failure removes the connection. -/
theorem delivery_failure_counterexample :
    (runStep oneConnRegistry 1 (fun _ => DeliveryOutcome.otherError)).1 1 = some [1] ∧
    (runStep oneConnRegistry 1 (fun _ => DeliveryOutcome.otherError)).2 = [1] := by decide

/-- C9 as amended: when a delivery to a registered connection fails with a
close-type error (going-away, normal or abnormal closure), the hub reacts
exactly as an explicit unregister and the connection is no longer in the
tenant's set; when it fails with any other write error the registry is left
unchanged; and in one `run` iteration each connection registered under the
message's tenant receives exactly one delivery attempt (no retry). -/
theorem deliverReaction_removes_on_close (saccoID : Nat) (conn : Conn)
    (outcome : DeliveryOutcome) (r : Registry) :
    (outcome = DeliveryOutcome.closeError →
      deliverReaction saccoID conn outcome r = unregisterClient saccoID conn r ∧
      ∀ cs, deliverReaction saccoID conn outcome r saccoID = some cs → conn ∉ cs) ∧
    (outcome = DeliveryOutcome.otherError → deliverReaction saccoID conn outcome r = r) ∧
    (∀ f : Conn → DeliveryOutcome, (runStep r saccoID f).2 = (r saccoID).getD []) := by
  refine ⟨?_, ?_, ?_⟩
  · rintro rfl
    exact ⟨rfl, unregisterClient_not_mem saccoID conn r⟩
  · rintro rfl
    rfl
  · intro f
    rw [runStep]
    cases r saccoID <;> simp

/-- Witness for the amended C9: a close-type failure on connection 1 of
`oneConnRegistry` removes tenant 1's only connection (the entry is
dropped), while an other-type failure leaves the registry unchanged. -/
theorem deliverReaction_removes_on_close_witness :
    deliverReaction 1 1 DeliveryOutcome.closeError oneConnRegistry
      = unregisterClient 1 1 oneConnRegistry ∧
    deliverReaction 1 1 DeliveryOutcome.otherError oneConnRegistry = oneConnRegistry :=
  ⟨((deliverReaction_removes_on_close 1 1 DeliveryOutcome.closeError oneConnRegistry).1 rfl).1,
    (deliverReaction_removes_on_close 1 1 DeliveryOutcome.otherError oneConnRegistry).2.1 rfl⟩

/-- The Go string slice expression `s[i:]` (over the characters of `s`):
defined only for `0 ≤ i ≤ len(s)`; outside that range the Go runtime
panics with a slice-bounds-out-of-range error, modelled as `none`. -/
def goSliceFrom (s : String) (i : Int) : Option (List Char) :=
  if 0 ≤ i ∧ i ≤ (s.data.length : Int) then some (s.data.drop i.toNat) else none

/-- The timestamp-normalization step of `LocationData.UnmarshalJSON`
(web_socket_controller.go:61-66):

    if !(strings.HasSuffix(ts, "Z") || strings.ContainsAny(ts[len(ts)-6:], "+-")) {
        ts += "Z"
    }

`strings.HasSuffix(ts, "Z")` is the last character being 'Z'; Go's `||`
short-circuits, so the slice `ts[len(ts)-6:]` is only evaluated when the
suffix check fails; `strings.ContainsAny(·, "+-")` is membership of '+' or
'-'.  The result is `none` exactly where the Go expression panics. -/
def normalizeTimestamp (ts : String) : Option String :=
  if ts.data.getLast? = some 'Z' then
    some ts
  else
    match goSliceFrom ts ((ts.data.length : Int) - 6) with
    | none => none
    | some tail =>
        if tail.any (fun c => c == '+' || c == '-') then some ts
        else some (ts ++ "Z")

/-- Evaluation of the timestamp-normalization step at the failing inputs of
C5 and at representative healthy ones: the empty timestamp string and any
string shorter than 6 characters without a 'Z' suffix make the Go slice
`ts[len(ts)-6:]` panic (negative start index), so normalization is not
defined there and the session handler is aborted instead of receiving a
per-frame format error; strings ending in 'Z', carrying an offset sign in
the last 6 characters, or at least 6 characters long are handled as the
spec describes. -/
theorem normalizeTimestamp_partial :
    normalizeTimestamp "" = none ∧
    normalizeTimestamp "12:00" = none ∧
    normalizeTimestamp "2024-01-01T00:00:00" = some "2024-01-01T00:00:00Z" ∧
    normalizeTimestamp "2024-01-01T00:00:00+03:00" = some "2024-01-01T00:00:00+03:00" ∧
    normalizeTimestamp "12:00Z" = some "12:00Z" := by
  refine ⟨?_, ?_, ?_, ?_, ?_⟩ <;> decide
